import Mathlib

/-!
Shallow embedding of `src/server.js` (LinkedIn-Post-Generator-Server).

The server has four Express handlers sharing external clients (a Supabase
store, an RSS parser, and the OpenAI completion API).  Each handler is
embedded as a pure Lean function over an environment record that records
what each external call would return; the outcome record carries the HTTP
status, the JSON `message`, the returned payload, and traces of the
side-effecting calls (which feeds were parsed, which prompts were sent to
the completion API, which `scan_logs` rows were inserted).

JavaScript-specific behaviour is modelled explicitly:
* a possibly-missing body field or object property is `Option`;
* string truthiness (`""`, `undefined` are falsy) is `strTruthy`;
* template-literal interpolation of a possibly-undefined value is `jsShow`
  (interpolating `undefined` yields the string "undefined");
* timestamps are `Int` milliseconds; an unparseable date (`NaN`) is `none`
  and every comparison against it is false, as in JS.
-/

namespace Server

/-- JS truthiness for an optional string: `undefined` and `""` are falsy. -/
def strTruthy : Option String → Bool
  | none => false
  | some s => s ≠ ""

/-- Template-literal interpolation of a possibly-undefined string value:
interpolating `undefined` produces the text "undefined". -/
def jsShow : Option String → String
  | none => "undefined"
  | some s => s

/-- `a || b || ''` on optional strings, with JS falsiness (line 129 of
`server.js`: `item.content || item.contentSnippet || ''`). -/
def contentFallback (c cs : Option String) : String :=
  if strTruthy c then jsShow c
  else if strTruthy cs then jsShow cs
  else ""

/-- JS `String.prototype.trim`: strip leading and trailing whitespace
(line 168 of `server.js`: `openAiResponse.data.choices[0].text.trim()`). -/
def jsTrim (s : String) : String :=
  String.mk
    (((s.data.dropWhile Char.isWhitespace).reverse.dropWhile
      Char.isWhitespace).reverse)

/-- A parsed feed item as produced by `rss-parser`: every property may be
absent.  `pubDate` is the result of `new Date(item.pubDate)`, reduced to its
millisecond timestamp; `none` models an invalid date (`NaN`). -/
structure FeedItem where
  title : Option String
  link : Option String
  pubDate : Option Int
  guid : Option String
  content : Option String
  contentSnippet : Option String
deriving DecidableEq, Repr

/-- A parsed feed: the handler only reads `feed.items`. -/
structure Feed where
  items : List FeedItem
deriving DecidableEq, Repr

/-- The outcome of `parser.parseURL(url)`: the promise either rejects with
an error message (`.error`), or resolves to a value that may be null-ish
(`.ok none`) or a real feed object (`.ok (some f)`).  The argument is the
`url` value from the request body, which may be `undefined`. -/
abbrev ParseFn := Option String → Except String (Option Feed)

/-- An article record as pushed on line 124–130 of `server.js`. -/
structure Article where
  id : String
  title : Option String
  link : Option String
  pubDate : Option Int
  content : String
deriving DecidableEq, Repr

/-- Line 120: `new Date(item.pubDate) >= new Date(startOfToday)`.  A `NaN`
publication date compares false. -/
def itemToday (startOfToday : Int) (item : FeedItem) : Bool :=
  match item.pubDate with
  | some t => startOfToday ≤ t
  | none => false

/-- Lines 123–130: build the article for a surviving item.
`id` is the template literal `feedUrl ++ "_" ++ item.guid`. -/
def mkArticle (feedUrl : String) (item : FeedItem) : Article :=
  { id := feedUrl ++ "_" ++ jsShow item.guid
    title := item.title
    link := item.link
    pubDate := item.pubDate
    content := contentFallback item.content item.contentSnippet }

/-- Result of the per-feed loop (lines 117–137): either every feed parsed
and we have the flat article list, or some feed failed and the handler
returned early.  `parsed` records the URLs passed to `parser.parseURL`,
in order. -/
inductive FeedLoopRes where
  | ok (articles : List Article) (parsed : List String)
  | err (feedUrl : String) (parsed : List String)
deriving DecidableEq, Repr

/-- Does this parse outcome let the loop body continue?  A rejection is
caught; a null-ish resolution makes `feed.items` throw, which the same
`catch` block turns into the identical per-feed error. -/
def parsedOk : Except String (Option Feed) → Bool
  | .ok (some _) => true
  | _ => false

/-- The feed of a successful parse outcome (unused on failures). -/
def feedOf : Except String (Option Feed) → Feed
  | .ok (some f) => f
  | _ => ⟨[]⟩

/-- Lines 117–137 of `server.js`: iterate over the feed URLs in order; a
parse failure returns immediately with that URL; otherwise filter to
today's items and append their articles. -/
def feedLoop (parse : ParseFn) (startOfToday : Int) : List String → FeedLoopRes
  | [] => .ok [] []
  | url :: rest =>
    if parsedOk (parse (some url)) then
      let arts := ((feedOf (parse (some url))).items.filter
        (itemToday startOfToday)).map (mkArticle url)
      match feedLoop parse startOfToday rest with
      | .ok more ps => .ok (arts ++ more) (url :: ps)
      | .err u ps => .err u (url :: ps)
    else
      .err url [url]

/-- Line 140: the instruction line of the prompt, with the caller-supplied
context interpolated verbatim (an absent `openAiContext` interpolates as
"undefined"). -/
def promptHeader (openAiContext : Option String) : String :=
  "You act as an editor of the newsfeed and your job is to pick "
    ++ jsShow openAiContext
    ++ ". You will be given article previews. When responding, list top 3 article IDs (as a comma-separated list - no text is necessary) you feel are the most prominent. \n\n"

/-- Line 141: one delimited block per article. -/
def articleBlock (a : Article) : String :=
  "***ID " ++ a.id ++ ": \n" ++ a.content ++ "\n***"

/-- Line 141: the concatenated article blocks. -/
def promptText (articles : List Article) : String :=
  String.intercalate "\n" (articles.map articleBlock)

/-- Environment of the `/fetch-articles` handler: what each external call
would return, plus the clock. -/
structure FetchEnv where
  /-- `parser.parseURL` -/
  parse : ParseFn
  /-- `process.env.OPENAI_API_KEY` -/
  apiKey : Option String
  /-- the completion call: prompt ↦ error, or `choices[0].text` -/
  openai : String → Except String String
  /-- `startOfToday` (line 113), local midnight as ms timestamp -/
  startOfToday : Int
  /-- `new Date().toISOString()` at the `scan_logs` insert (line 172) -/
  now : Int

/-- Observable outcome of one `/fetch-articles` request. -/
structure FetchOutcome where
  status : Nat
  message : Option String
  articles : Option (List Article)
  topArticles : Option String
  /-- URLs passed to `parser.parseURL`, in call order -/
  parsedFeeds : List String
  /-- prompts sent to the completion API, in call order -/
  openaiPrompts : List String
  /-- `scan_date` values inserted into `scan_logs`, in call order -/
  scanInserts : List Int
deriving DecidableEq, Repr

/-- Lines 108–185 of `server.js`: the `POST /fetch-articles` handler.
`feeds` and `openAiContext` are the (possibly missing) body fields; a
missing `feeds` makes `for (const feedUrl of feeds)` throw, which the outer
catch maps to a 500 "Error fetching articles". -/
def fetchArticlesHandler (env : FetchEnv) (feeds : Option (List String))
    (openAiContext : Option String) : FetchOutcome :=
  match feeds with
  | none =>
    { status := 500, message := some "Error fetching articles",
      articles := none, topArticles := none,
      parsedFeeds := [], openaiPrompts := [], scanInserts := [] }
  | some feedList =>
    match feedLoop env.parse env.startOfToday feedList with
    | .err url parsed =>
      { status := 500,
        message := some ("Error fetching articles from " ++ url),
        articles := none, topArticles := none,
        parsedFeeds := parsed, openaiPrompts := [], scanInserts := [] }
    | .ok arts parsed =>
      if strTruthy env.apiKey then
        let fullPrompt := promptHeader openAiContext ++ promptText arts
        match env.openai fullPrompt with
        | .error _ =>
          { status := 500, message := some "Error during OpenAI request",
            articles := none, topArticles := none,
            parsedFeeds := parsed, openaiPrompts := [fullPrompt],
            scanInserts := [] }
        | .ok text =>
          { status := 200, message := none,
            articles := some arts, topArticles := some (jsTrim text),
            parsedFeeds := parsed, openaiPrompts := [fullPrompt],
            scanInserts := [env.now] }
      else
        { status := 500, message := some "OpenAI API key is not set.",
          articles := none, topArticles := none,
          parsedFeeds := parsed, openaiPrompts := [], scanInserts := [] }

/-- Observable outcome of one `/validate-feed` request. -/
structure ValidateOutcome where
  status : Nat
  message : String
  /-- arguments passed to `parser.parseURL`, in call order -/
  parseCalls : List (Option String)
deriving DecidableEq, Repr

/-- Lines 64–78 of `server.js`: the `POST /validate-feed` handler.  The
body's `url` field is destructured (possibly `undefined`) and passed to the
parser unconditionally; a rejection is caught into a generic 500, a
null-ish resolution gives 400, anything else 200. -/
def validateFeedHandler (parse : ParseFn) (url : Option String) :
    ValidateOutcome :=
  match parse url with
  | .error _ => ⟨500, "Error parsing RSS feed", [url]⟩
  | .ok none => ⟨400, "Invalid RSS feed format", [url]⟩
  | .ok (some _) => ⟨200, "RSS feed is valid", [url]⟩

/-- Environment of `GET /check-scan`: local midnight and the state of the
`scan_logs` table (or a store error).  Rows are reduced to their
`scan_date` ms timestamps.  The `.gte('scan_date', startOfToday)` filter is
the store-side date filter of the Supabase select. -/
structure ScanEnv where
  startOfToday : Int
  scanLogs : Except String (List Int)

/-- Observable outcome of one `GET /check-scan` request. -/
structure ScanOutcome where
  status : Nat
  scanDone : Option Bool
deriving DecidableEq, Repr

/-- Lines 81–105 of `server.js`: the `GET /check-scan` handler.  The store
evaluates `scan_date >= startOfToday`; the handler maps an error to 500 and
otherwise reports whether the filtered row set is non-empty. -/
def checkScanHandler (env : ScanEnv) : ScanOutcome :=
  match env.scanLogs with
  | .error _ => ⟨500, none⟩
  | .ok rows =>
    let data := rows.filter (fun d => env.startOfToday ≤ d)
    if data.isEmpty then ⟨200, some false⟩ else ⟨200, some true⟩

/-- Environment of `DELETE /delete-user/:userId`. -/
structure DeleteEnv where
  /-- `supabaseAdmin.auth.admin.deleteUser`: `none` = no error,
  `some msg` = `authError` with that message -/
  authDelete : String → Option String
  /-- the `users` table delete: an error message, or the returned `data`
  (which may be null-ish, or a list of deleted rows identified by id) -/
  rowDelete : String → Except String (Option (List String))

/-- Observable outcome of one `/delete-user` request. -/
structure DeleteOutcome where
  status : Nat
  message : String
  /-- whether the `users` table delete was executed -/
  rowDeleteAttempted : Bool
deriving DecidableEq, Repr

/-- Lines 39–56 of `server.js`: the users-table deletion step. -/
def deleteRowStep (env : DeleteEnv) (userId : String) : DeleteOutcome :=
  match env.rowDelete userId with
  | .error msg =>
    ⟨500, "Failed to delete user from users table: " ++ msg, true⟩
  | .ok none =>
    ⟨404, "No user was deleted from users table. Please ensure the user exists and you have the right permissions.", true⟩
  | .ok (some rows) =>
    if rows.isEmpty then
      ⟨404, "No user was deleted from users table. Please ensure the user exists and you have the right permissions.", true⟩
    else
      ⟨200, "User deleted successfully from both authentication and users table.", true⟩

/-- Lines 22–61 of `server.js`: the `DELETE /delete-user/:userId` handler.
An auth error with message exactly "User not found" is non-fatal; any other
auth error returns 500 with the underlying message appended. -/
def deleteUserHandler (env : DeleteEnv) (userId : String) : DeleteOutcome :=
  match env.authDelete userId with
  | some msg =>
    if msg = "User not found" then deleteRowStep env userId
    else
      ⟨500, "Failed to delete user from authentication: " ++ msg, false⟩
  | none => deleteRowStep env userId

/-- Spec-side description of the loop's output when every feed parses:
today's items of every feed, in feed order then item order. -/
def articlesOf (F : String → Feed) (startOfToday : Int)
    (fl : List String) : List Article :=
  fl.flatMap (fun url =>
    ((F url).items.filter (itemToday startOfToday)).map (mkArticle url))

/-! ### Concrete environments (used by witnesses and counterexamples) -/

/-- Feed A, item published "today" (start of today is 100 ms). -/
def itemA1 : FeedItem :=
  ⟨some "A today", some "http://a/1", some 150, some "a1",
    some "full A1", some "snip A1"⟩

/-- Feed A, item published "yesterday". -/
def itemA2 : FeedItem :=
  ⟨some "A yesterday", some "http://a/2", some 50, some "a2",
    none, some "snip A2"⟩

/-- Feed B, item published exactly at local midnight. -/
def itemB1 : FeedItem :=
  ⟨some "B today", some "http://b/1", some 100, some "b1", none, none⟩

/-- Two demo feeds. -/
def demoFeeds : String → Feed := fun url =>
  if url = "feedA" then ⟨[itemA1, itemA2]⟩
  else if url = "feedB" then ⟨[itemB1]⟩
  else ⟨[]⟩

/-- A parser that resolves every present URL to its demo feed and rejects
an undefined URL (as `rss-parser` does). -/
def demoParse : ParseFn := fun u =>
  match u with
  | some s => .ok (some (demoFeeds s))
  | none => .error "Invalid URL"

/-- Fully working environment: feeds parse, key set, model answers. -/
def envOk : FetchEnv :=
  { parse := demoParse, apiKey := some "sk-test",
    openai := fun _ => .ok " id1, id2, id3 ",
    startOfToday := 100, now := 555 }

/-- Same but with `OPENAI_API_KEY` unset. -/
def envNoKey : FetchEnv := { envOk with apiKey := none }

/-- A parser whose every call rejects. -/
def badParse : ParseFn := fun _ => .error "fetch failed"

/-- Key unset and feeds failing. -/
def envNoKeyBadFeed : FetchEnv :=
  { envOk with apiKey := none, parse := badParse }

/-- Feed A parses, feed B rejects. -/
def envFeedBErr : FetchEnv :=
  { envOk with parse := fun u =>
      match u with
      | some s =>
        if s = "feedB" then .error "boom" else .ok (some (demoFeeds s))
      | none => .error "Invalid URL" }

/-- A parser that rejects every call — in particular a call on an
undefined URL, which is what `rss-parser` does when handed `undefined`. -/
def cexParse : ParseFn := fun _ => .error "Invalid URL"

/-- Auth deletion fails with a message other than "User not found". -/
def authFailEnv : DeleteEnv :=
  { authDelete := fun _ => some "JWT expired",
    rowDelete := fun _ => .ok (some ["row1"]) }

/-- Auth deletion succeeds but the users table has no matching row. -/
def rowsEmptyEnv : DeleteEnv :=
  { authDelete := fun _ => none, rowDelete := fun _ => .ok (some []) }

/-! ### Helper lemmas -/

/-- The users-table delete is executed in every branch of the second step. -/
lemma deleteRowStep_attempted (env : DeleteEnv) (u : String) :
    (deleteRowStep env u).rowDeleteAttempted = true := by
  rcases h : env.rowDelete u with e | (_ | rows) <;>
    simp [deleteRowStep, h]
  split <;> rfl

/-- When every feed parses to a feed object, the loop succeeds with
today's articles of every feed, in order, having attempted every URL. -/
lemma feedLoop_all_ok (parse : ParseFn) (s : Int) (F : String → Feed)
    (fl : List String)
    (h : ∀ url ∈ fl, parse (some url) = .ok (some (F url))) :
    feedLoop parse s fl = .ok (articlesOf F s fl) fl := by
  induction fl with
  | nil => rfl
  | cons u rest ih =>
    have hu : parse (some u) = .ok (some (F u)) := h u (by simp)
    have hr := ih (fun url hm => h url (List.mem_cons_of_mem _ hm))
    simp [feedLoop, parsedOk, feedOf, hu, hr, articlesOf]

/-- When the feeds before `bad` parse and `bad` does not, the loop stops at
`bad`: only the prefix and `bad` were attempted, nothing is returned. -/
lemma feedLoop_err (parse : ParseFn) (s : Int) (pre : List String)
    (bad : String) (post : List String)
    (hpre : ∀ url ∈ pre, parsedOk (parse (some url)) = true)
    (hbad : parsedOk (parse (some bad)) = false) :
    feedLoop parse s (pre ++ bad :: post) = .err bad (pre ++ [bad]) := by
  induction pre with
  | nil => simp [feedLoop, hbad]
  | cons u rest ih =>
    have hu : parsedOk (parse (some u)) = true := hpre u (by simp)
    have hr := ih (fun url hm => hpre url (List.mem_cons_of_mem _ hm))
    simp [feedLoop, hu, hr]

/-! ### Claims -/

/-- C5: for every DELETE /delete-user/:userId request, an auth error whose
message is exactly "User not found" is non-fatal (the handler continues to
the row-deletion step, which is executed); any other auth error yields a
500 carrying the underlying auth message, and the users-table delete is not
attempted. -/
theorem delete_user_auth_step (env : DeleteEnv) (userId : String) :
    (∀ m, env.authDelete userId = some m → m ≠ "User not found" →
      deleteUserHandler env userId =
        ⟨500, "Failed to delete user from authentication: " ++ m, false⟩) ∧
    (env.authDelete userId = some "User not found" →
      deleteUserHandler env userId = deleteRowStep env userId ∧
      (deleteUserHandler env userId).rowDeleteAttempted = true) := by
  constructor
  · intro m hm hne
    simp [deleteUserHandler, hm, hne]
  · intro hm
    simp [deleteUserHandler, hm, deleteRowStep_attempted]

/-- Witness for C5 at a concrete environment: a fatal auth failure maps to
500 with the underlying message, row delete not attempted. -/
theorem delete_user_auth_step_witness :
    deleteUserHandler authFailEnv "u1" =
      ⟨500, "Failed to delete user from authentication: " ++ "JWT expired",
        false⟩ :=
  (delete_user_auth_step authFailEnv "u1").1 "JWT expired" rfl (by decide)

/-- C6: for every DELETE /delete-user/:userId request whose auth step did
not abort, a store error at the row delete gives 500 with the underlying
message, a null or empty deleted-rows list gives 404, and a non-empty one
gives 200. -/
theorem delete_user_row_step (env : DeleteEnv) (userId : String)
    (hauth : env.authDelete userId = none ∨
      env.authDelete userId = some "User not found") :
    (∀ m, env.rowDelete userId = .error m →
      deleteUserHandler env userId =
        ⟨500, "Failed to delete user from users table: " ++ m, true⟩) ∧
    ((env.rowDelete userId = .ok none ∨
      env.rowDelete userId = .ok (some [])) →
      (deleteUserHandler env userId).status = 404) ∧
    (∀ rows, env.rowDelete userId = .ok (some rows) → rows ≠ [] →
      (deleteUserHandler env userId).status = 200) := by
  have hstep : deleteUserHandler env userId = deleteRowStep env userId := by
    rcases hauth with h | h <;> simp [deleteUserHandler, h]
  refine ⟨?_, ?_, ?_⟩ <;> rw [hstep]
  · intro m hm
    simp [deleteRowStep, hm]
  · rintro (hm | hm) <;> simp [deleteRowStep, hm]
  · intro rows hm hne
    simp [deleteRowStep, hm, List.isEmpty_iff, hne]

/-- Witness for C6 at a concrete environment: auth succeeded, zero rows
deleted, response is 404. -/
theorem delete_user_row_step_witness :
    (deleteUserHandler rowsEmptyEnv "ghost").status = 404 :=
  (delete_user_row_step rowsEmptyEnv "ghost" (Or.inl rfl)).2.1 (Or.inr rfl)

/-- C7: GET /check-scan answers 200 with scanDone = true iff some scan-log
row's scan_date is ≥ local midnight (inclusive: a row exactly at midnight
counts, one a millisecond earlier does not); a store error answers 500. -/
theorem check_scan_boundary (m : Int) (rows : List Int) (e : String) :
    (checkScanHandler ⟨m, .ok rows⟩).status = 200 ∧
    ((checkScanHandler ⟨m, .ok rows⟩).scanDone = some true ↔
      ∃ d ∈ rows, m ≤ d) ∧
    ((checkScanHandler ⟨m, .ok rows⟩).scanDone = some false ↔
      ¬ ∃ d ∈ rows, m ≤ d) ∧
    checkScanHandler ⟨m, .error e⟩ = ⟨500, none⟩ ∧
    (checkScanHandler ⟨m, .ok [m]⟩).scanDone = some true ∧
    (checkScanHandler ⟨m, .ok [m - 1]⟩).scanDone = some false := by
  have hmain : ∀ rs : List Int,
      (checkScanHandler ⟨m, .ok rs⟩).status = 200 ∧
      ((checkScanHandler ⟨m, .ok rs⟩).scanDone = some true ↔
        ∃ d ∈ rs, m ≤ d) ∧
      ((checkScanHandler ⟨m, .ok rs⟩).scanDone = some false ↔
        ¬ ∃ d ∈ rs, m ≤ d) := by
    intro rs
    have key : ((rs.filter (fun d => decide (m ≤ d))).isEmpty = true) ↔
        ¬ ∃ d ∈ rs, m ≤ d := by
      rw [List.isEmpty_iff, List.filter_eq_nil_iff]
      simp
    refine ⟨?_, ?_, ?_⟩ <;> simp only [checkScanHandler] <;> split
    · rfl
    · rfl
    · next h => exact iff_of_false (by simp) (key.mp h)
    · next h =>
      refine iff_of_true rfl ?_
      by_contra hn
      exact h (key.mpr hn)
    · next h => exact iff_of_true rfl (key.mp h)
    · next h =>
      refine iff_of_false (by simp) ?_
      intro hn
      exact h (key.mpr hn)
  refine ⟨(hmain rows).1, (hmain rows).2.1, (hmain rows).2.2, rfl, ?_, ?_⟩
  · exact (hmain [m]).2.1.mpr ⟨m, by simp⟩
  · refine (hmain [m - 1]).2.2.mpr ?_
    intro hn
    rcases hn with ⟨d, hd, hmd⟩
    simp only [List.mem_singleton] at hd
    omega

/-- C8: POST /validate-feed always invokes the parser on the supplied url
and classifies the outcome: rejection → 500 with the fixed generic message
(independent of the underlying error), null-ish resolution → 400
"Invalid RSS feed format", feed object → 200 "RSS feed is valid". -/
theorem validate_feed_classification (parse : ParseFn) (url : Option String) :
    (validateFeedHandler parse url).parseCalls = [url] ∧
    validateFeedHandler parse url =
      ⟨(match parse url with
        | .error _ => 500
        | .ok none => 400
        | .ok (some _) => 200),
       (match parse url with
        | .error _ => "Error parsing RSS feed"
        | .ok none => "Invalid RSS feed format"
        | .ok (some _) => "RSS feed is valid"),
       [url]⟩ := by
  rcases h : parse url with e | (_ | f) <;> simp [validateFeedHandler, h]

/-- C1: for every POST /fetch-articles request whose feeds all parse
successfully (and whose model call succeeds, so that a response with
articles is returned), the returned articles list is exactly the feeds'
items whose publication date is on or after start-of-today, in feed
iteration order and within-feed item order; `mkArticle` gives each article
id `feedUrl ++ "_" ++ item.guid` and content = full content, falling back
to snippet, falling back to "". -/
theorem fetch_articles_success (env : FetchEnv) (fl : List String)
    (ctx : Option String) (F : String → Feed) (text : String)
    (hparse : ∀ url ∈ fl, env.parse (some url) = .ok (some (F url)))
    (hkey : strTruthy env.apiKey = true)
    (hopenai : env.openai
      (promptHeader ctx ++ promptText (articlesOf F env.startOfToday fl)) =
        .ok text) :
    fetchArticlesHandler env (some fl) ctx =
      { status := 200, message := none,
        articles := some (articlesOf F env.startOfToday fl),
        topArticles := some (jsTrim text),
        parsedFeeds := fl,
        openaiPrompts :=
          [promptHeader ctx ++ promptText (articlesOf F env.startOfToday fl)],
        scanInserts := [env.now] } := by
  have hloop := feedLoop_all_ok env.parse env.startOfToday F fl hparse
  simp [fetchArticlesHandler, hloop, hkey, hopenai]

/-- Witness for C1, the spec's own scenario: feed A has a today item and a
yesterday item, feed B has one item dated exactly at start-of-today; the
response carries exactly the two today items, in feed-then-item order, with
composite ids and the content fallbacks applied. -/
theorem fetch_articles_success_witness :
    fetchArticlesHandler envOk (some ["feedA", "feedB"]) (some "tech news") =
      { status := 200, message := none,
        articles :=
          some (articlesOf demoFeeds envOk.startOfToday ["feedA", "feedB"]),
        topArticles := some (jsTrim " id1, id2, id3 "),
        parsedFeeds := ["feedA", "feedB"],
        openaiPrompts := [promptHeader (some "tech news") ++
          promptText (articlesOf demoFeeds envOk.startOfToday
            ["feedA", "feedB"])],
        scanInserts := [555] } ∧
    articlesOf demoFeeds envOk.startOfToday ["feedA", "feedB"] =
      [⟨"feedA_a1", some "A today", some "http://a/1", some 150, "full A1"⟩,
       ⟨"feedB_b1", some "B today", some "http://b/1", some 100, ""⟩] :=
  ⟨fetch_articles_success envOk ["feedA", "feedB"] (some "tech news")
      demoFeeds " id1, id2, id3 " (fun url _ => rfl) (by decide) rfl,
   by decide⟩

/-- C2: for every POST /fetch-articles request with a failing feed, the
handler answers 500 with a message naming that feed URL, attempts no feed
after it, returns no partial articles, calls no completion API and writes
no scan-log row — even when every earlier feed parsed. -/
theorem fetch_articles_feed_error (env : FetchEnv) (pre : List String)
    (bad : String) (post : List String) (ctx : Option String)
    (hpre : ∀ url ∈ pre, parsedOk (env.parse (some url)) = true)
    (hbad : parsedOk (env.parse (some bad)) = false) :
    fetchArticlesHandler env (some (pre ++ bad :: post)) ctx =
      { status := 500,
        message := some ("Error fetching articles from " ++ bad),
        articles := none, topArticles := none,
        parsedFeeds := pre ++ [bad],
        openaiPrompts := [], scanInserts := [] } := by
  have hloop := feedLoop_err env.parse env.startOfToday pre bad post hpre hbad
  simp [fetchArticlesHandler, hloop]

/-- Witness for C2 at the spec's scenario: feed A parses, feed B fails; 500
naming feedB, no scan-log write, no model call, no partial results. -/
theorem fetch_articles_feed_error_witness :
    fetchArticlesHandler envFeedBErr (some ["feedA", "feedB"]) none =
      { status := 500,
        message := some ("Error fetching articles from " ++ "feedB"),
        articles := none, topArticles := none,
        parsedFeeds := ["feedA", "feedB"],
        openaiPrompts := [], scanInserts := [] } :=
  fetch_articles_feed_error envFeedBErr ["feedA"] "feedB" [] none
    (by decide) (by decide)

/-- C3: for every POST /fetch-articles request, a scan-log row is written
exactly when the request fully succeeds: a non-empty insert trace implies a
200 response and a successful completion call on the one prompt that was
sent, and any non-200 outcome (feed error, missing credential, model error,
missing body field) leaves the scan-log store untouched. -/
theorem fetch_articles_insert_iff_success (env : FetchEnv)
    (feeds : Option (List String)) (ctx : Option String) :
    ((fetchArticlesHandler env feeds ctx).scanInserts ≠ [] →
      (fetchArticlesHandler env feeds ctx).status = 200 ∧
      ∃ p t, (fetchArticlesHandler env feeds ctx).openaiPrompts = [p] ∧
        env.openai p = .ok t) ∧
    ((fetchArticlesHandler env feeds ctx).status ≠ 200 →
      (fetchArticlesHandler env feeds ctx).scanInserts = []) := by
  rcases feeds with _ | fl
  · simp [fetchArticlesHandler]
  · rcases hloop : feedLoop env.parse env.startOfToday fl with
      ⟨arts, parsed⟩ | ⟨u, parsed⟩
    · by_cases hkey : strTruthy env.apiKey
      · rcases hcall : env.openai (promptHeader ctx ++ promptText arts) with
          e | t
        · simp [fetchArticlesHandler, hloop, hkey, hcall]
        · refine ⟨fun _ => ⟨?_, ?_⟩, fun h => ?_⟩
          · simp [fetchArticlesHandler, hloop, hkey, hcall]
          · refine ⟨promptHeader ctx ++ promptText arts, t, ?_, hcall⟩
            simp [fetchArticlesHandler, hloop, hkey, hcall]
          · exact absurd (by simp [fetchArticlesHandler, hloop, hkey, hcall]) h
      · simp [fetchArticlesHandler, hloop, hkey]
    · simp [fetchArticlesHandler, hloop]

/-- Witness for C3: on a fully successful run a row is inserted and the
theorem recovers 200 plus the successful model call; with a missing key the
run is not a 200 and the insert trace is empty. -/
theorem fetch_articles_insert_iff_success_witness :
    ((fetchArticlesHandler envOk (some []) none).status = 200 ∧
      ∃ p t, (fetchArticlesHandler envOk (some []) none).openaiPrompts = [p] ∧
        envOk.openai p = .ok t) ∧
    (fetchArticlesHandler envNoKey (some []) none).scanInserts = [] :=
  ⟨(fetch_articles_insert_iff_success envOk (some []) none).1 (by decide),
   (fetch_articles_insert_iff_success envNoKey (some []) none).2 (by decide)⟩

/-- C4 (amended): with no completion-API credential configured, every
POST /fetch-articles request answers 500, sends no prompt to the completion
API and writes no scan-log row; the 500 message names the missing
credential exactly when the request reaches the credential check, i.e. when
the body has a feeds list and the whole feed loop succeeds. -/
theorem fetch_articles_missing_key (env : FetchEnv)
    (feeds : Option (List String)) (ctx : Option String)
    (hkey : strTruthy env.apiKey = false) :
    (fetchArticlesHandler env feeds ctx).status = 500 ∧
    (fetchArticlesHandler env feeds ctx).openaiPrompts = [] ∧
    (fetchArticlesHandler env feeds ctx).scanInserts = [] ∧
    (∀ fl arts parsed, feeds = some fl →
      feedLoop env.parse env.startOfToday fl = .ok arts parsed →
      (fetchArticlesHandler env feeds ctx).message =
        some "OpenAI API key is not set.") := by
  rcases feeds with _ | fl
  · exact ⟨rfl, rfl, rfl, fun fl _ _ h _ => by cases h⟩
  · rcases hloop : feedLoop env.parse env.startOfToday fl with
      ⟨arts, parsed⟩ | ⟨u, parsed⟩
    · refine ⟨?_, ?_, ?_, ?_⟩ <;> simp [fetchArticlesHandler, hloop, hkey]
    · refine ⟨?_, ?_, ?_, ?_⟩
      · simp [fetchArticlesHandler, hloop]
      · simp [fetchArticlesHandler, hloop]
      · simp [fetchArticlesHandler, hloop]
      · intro fl2 arts2 parsed2 h1 h2
        injection h1 with h1
        subst h1
        rw [hloop] at h2
        simp at h2

/-- Counterexample to C4 as stated: the credential is unconfigured, yet the
500 message names the failing feed, not the missing credential — so not
every request made without a credential yields a response indicating the
missing credential. -/
theorem fetch_articles_missing_key_cex :
    envNoKeyBadFeed.apiKey = none ∧
    (fetchArticlesHandler envNoKeyBadFeed (some ["feedX"]) none).status
      = 500 ∧
    (fetchArticlesHandler envNoKeyBadFeed (some ["feedX"]) none).message =
      some "Error fetching articles from feedX" ∧
    (fetchArticlesHandler envNoKeyBadFeed (some ["feedX"]) none).message ≠
      some "OpenAI API key is not set." := by
  refine ⟨rfl, ?_, ?_, ?_⟩ <;> decide

/-- Witness for the amended C4: missing key, empty feeds list — 500 naming
the credential, no completion call, no scan-log row. -/
theorem fetch_articles_missing_key_witness :
    (fetchArticlesHandler envNoKey (some []) none).status = 500 ∧
    (fetchArticlesHandler envNoKey (some []) none).openaiPrompts = [] ∧
    (fetchArticlesHandler envNoKey (some []) none).scanInserts = [] ∧
    (fetchArticlesHandler envNoKey (some []) none).message =
      some "OpenAI API key is not set." :=
  ⟨(fetch_articles_missing_key envNoKey (some []) none rfl).1,
   (fetch_articles_missing_key envNoKey (some []) none rfl).2.1,
   (fetch_articles_missing_key envNoKey (some []) none rfl).2.2.1,
   (fetch_articles_missing_key envNoKey (some []) none rfl).2.2.2
     [] [] [] rfl rfl⟩

/-- C9 (amended): a missing required body field is not rejected before
external calls and never with a client error: /validate-feed with `url`
missing still invokes the parser (on the undefined url) and answers 500
when that call throws — as parsing an undefined URL does; /fetch-articles
with `feeds` missing answers 500 "Error fetching articles" from the thrown
iteration, with no external call and no scan-log write. -/
theorem missing_fields_not_prevalidated (parse : ParseFn) (env : FetchEnv)
    (ctx : Option String) :
    (validateFeedHandler parse none).parseCalls = [none] ∧
    (∀ e, parse none = .error e →
      (validateFeedHandler parse none).status = 500) ∧
    fetchArticlesHandler env none ctx =
      { status := 500, message := some "Error fetching articles",
        articles := none, topArticles := none,
        parsedFeeds := [], openaiPrompts := [], scanInserts := [] } := by
  refine ⟨?_, ?_, rfl⟩
  · rcases h : parse none with e | (_ | f) <;> simp [validateFeedHandler, h]
  · intro e he
    simp [validateFeedHandler, he]

/-- Counterexample to C9 as stated: with the `url` field missing,
/validate-feed does invoke the parser (one external call is made) and the
response is 500 — a server error, not the client error the claim requires,
and not issued before the external call. -/
theorem missing_fields_cex :
    (validateFeedHandler cexParse none).parseCalls = [none] ∧
    (validateFeedHandler cexParse none).status = 500 ∧
    ¬ (400 ≤ (validateFeedHandler cexParse none).status ∧
        (validateFeedHandler cexParse none).status < 500) := by
  refine ⟨rfl, rfl, ?_⟩
  decide

/-- Witness for the amended C9 at concrete inputs. -/
theorem missing_fields_witness :
    (validateFeedHandler cexParse none).status = 500 ∧
    fetchArticlesHandler envNoKey none none =
      { status := 500, message := some "Error fetching articles",
        articles := none, topArticles := none,
        parsedFeeds := [], openaiPrompts := [], scanInserts := [] } :=
  ⟨(missing_fields_not_prevalidated cexParse envNoKey none).2.1
      "Invalid URL" rfl,
   (missing_fields_not_prevalidated cexParse envNoKey none).2.2⟩

/-- C10: a POST /fetch-articles request whose feeds list is empty, or whose
feeds all parse but hold no item dated today, is not short-circuited: the
completion API is invoked once with the bare instruction line (no article
blocks), and on model success the handler writes a scan-log row and answers
200 with an empty articles list and the model's trimmed text. -/
theorem fetch_articles_no_shortcircuit (env : FetchEnv) (fl : List String)
    (ctx : Option String) (F : String → Feed)
    (hparse : ∀ url ∈ fl, env.parse (some url) = .ok (some (F url)))
    (hempty : ∀ url ∈ fl,
      (F url).items.filter (itemToday env.startOfToday) = [])
    (hkey : strTruthy env.apiKey = true) :
    (fetchArticlesHandler env (some fl) ctx).openaiPrompts =
      [promptHeader ctx] ∧
    (∀ t, env.openai (promptHeader ctx) = .ok t →
      fetchArticlesHandler env (some fl) ctx =
        { status := 200, message := none, articles := some [],
          topArticles := some (jsTrim t), parsedFeeds := fl,
          openaiPrompts := [promptHeader ctx],
          scanInserts := [env.now] }) := by
  have hnil : articlesOf F env.startOfToday fl = [] := by
    rw [articlesOf, List.flatMap_eq_nil_iff]
    intro url hu
    rw [hempty url hu]
    rfl
  have hloop := feedLoop_all_ok env.parse env.startOfToday F fl hparse
  rw [hnil] at hloop
  have hpt : promptText [] = "" := rfl
  constructor
  · rcases hcall : env.openai (promptHeader ctx) with e | t <;>
      simp [fetchArticlesHandler, hloop, hkey, hpt, String.append_empty,
        hcall]
  · intro t hcall
    simp [fetchArticlesHandler, hloop, hkey, hpt, String.append_empty,
      hcall]

/-- Witness for C10: empty feeds list, configured key, model answers — the
single prompt is the bare instruction line, a scan-log row is written, the
response is 200 with zero articles. -/
theorem fetch_articles_no_shortcircuit_witness :
    (fetchArticlesHandler envOk (some []) (some "ai news")).openaiPrompts =
      [promptHeader (some "ai news")] ∧
    fetchArticlesHandler envOk (some []) (some "ai news") =
      { status := 200, message := none, articles := some [],
        topArticles := some (jsTrim " id1, id2, id3 "),
        parsedFeeds := [], openaiPrompts := [promptHeader (some "ai news")],
        scanInserts := [555] } :=
  ⟨(fetch_articles_no_shortcircuit envOk [] (some "ai news") demoFeeds
      (fun url h => absurd h (List.not_mem_nil url))
      (fun url h => absurd h (List.not_mem_nil url)) (by decide)).1,
   (fetch_articles_no_shortcircuit envOk [] (some "ai news") demoFeeds
      (fun url h => absurd h (List.not_mem_nil url))
      (fun url h => absurd h (List.not_mem_nil url)) (by decide)).2
     " id1, id2, id3 " rfl⟩

end Server
